import Mathlib

/-
  Shallow embedding of internal/pkg/wsrpc/rwc.go (package wsrpc).

  The Go code adapts a gorilla/websocket connection into an
  io.ReadWriteCloser.  We model:

  * the underlying websocket connection (`Conn`) as an environment state:
    a list of pending inbound messages, a list of behaviours for the
    writers handed out by NextWriter, the list of finalized (sent)
    messages, and the result/flag of closing the connection;
  * an inbound message reader (gorilla's per-message reader) as the list
    of its remaining bytes: Read returns the requested prefix with no
    error while bytes remain, and reports end-of-message (io.EOF) once it
    is called with no bytes remaining — exactly gorilla's behaviour;
  * an outbound message writer (`Writer`) as its accumulated bytes plus a
    script of per-call behaviours: a `none` step (or an exhausted script)
    accepts the whole slice and returns no error, a `some k` step accepts
    min k (length p) bytes and returns a transport error — this respects
    the io.Writer contract (a short write always carries an error);
  * the adapter struct `ReadWriteCloser` with its three fields: `ws`
    models whether the connection pointer is non-nil, `r` and `w` are the
    active reader/writer handles.

  The Go methods run one at a time in this embedding (the calls are
  sequential), so the mutex is elided and the Go code's re-check of
  rwc.ws after re-acquiring the lock — a guard against a concurrent
  Close — always sees the same value that was snapshotted; the
  corresponding branches are noted in comments where they occur.
  State is threaded explicitly: every operation takes and returns a
  `St` (connection state plus adapter fields).
-/

namespace WSRPC

/-- Error values that cross the modelled interfaces: io.ErrClosedPipe,
io.EOF and a generic transport failure. -/
inductive Err : Type where
  | closedPipe : Err
  | eof : Err
  | transport : Err
deriving DecidableEq

/-- Behaviour script for one outbound message writer handed out by
NextWriter: the write steps and whether Close (finalization) fails. -/
structure WriterSpec : Type where
  steps : List (Option Nat)
  closeFail : Bool
deriving DecidableEq

/-- An open outbound message writer: bytes accumulated so far plus the
remaining behaviour script. -/
structure Writer : Type where
  buf : List Nat
  steps : List (Option Nat)
  closeFail : Bool
deriving DecidableEq

/-- One w.Write(p) call on the underlying message writer: returns the
updated writer, the byte count accepted, and the error.  An exhausted
script or a `none` step accepts everything; a `some k` step accepts
min k (length p) bytes and fails with a transport error. -/
def writerWrite (w : Writer) (p : List Nat) : Writer × Nat × Option Err :=
  match w.steps with
  | [] => ({ w with buf := w.buf ++ p }, p.length, none)
  | none :: rest => ({ w with buf := w.buf ++ p, steps := rest }, p.length, none)
  | some k :: rest =>
      ({ w with buf := w.buf ++ p.take (min k p.length), steps := rest },
       min k p.length, some Err.transport)

/-- The underlying websocket connection: pending inbound messages,
behaviour scripts for successive NextWriter calls (a `none` entry makes
that NextWriter call fail; an exhausted list yields default well-behaved
writers), the finalized outbound messages, and the close bookkeeping. -/
structure Conn : Type where
  msgs : List (List Nat)
  wplans : List (Option WriterSpec)
  sent : List (List Nat)
  closed : Bool
  closeErr : Option Err
deriving DecidableEq

/-- ws.NextWriter(websocket.TextMessage): pops the next writer behaviour;
returns `none` for a failing NextWriter call. -/
def nextWriter (c : Conn) : Conn × Option Writer :=
  match c.wplans with
  | [] => (c, some { buf := [], steps := [], closeFail := false })
  | none :: rest => ({ c with wplans := rest }, none)
  | some sp :: rest =>
      ({ c with wplans := rest },
       some { buf := [], steps := sp.steps, closeFail := sp.closeFail })

/-- w.Close() on an outbound message writer: on success the accumulated
bytes are flushed onto the transport as one complete (text) message; on
failure nothing is emitted and a transport error is returned. -/
def finalizeWriter (c : Conn) (w : Writer) : Conn × Option Err :=
  if w.closeFail then (c, some Err.transport)
  else ({ c with sent := c.sent ++ [w.buf] }, none)

/-- ws.Close(): releases the transport and reports the connection's
scripted close result. -/
def connClose (c : Conn) : Conn × Option Err :=
  ({ c with closed := true }, c.closeErr)

/-- The adapter struct of rwc.go.  `ws` is true while the connection
pointer is non-nil; `r` holds the remaining bytes of the active inbound
message reader; `w` holds the active outbound message writer. -/
structure ReadWriteCloser : Type where
  ws : Bool
  r : Option (List Nat)
  w : Option Writer
deriving DecidableEq

/-- Whole modelled state: the shared connection object plus the adapter
fields (the Go struct holds a pointer to the connection; here the
connection state lives beside the adapter so it stays observable after
the adapter drops its handle). -/
structure St : Type where
  conn : Conn
  rwc : ReadWriteCloser
deriving DecidableEq

/-- NewReadWriteCloser: wraps a live connection; no reader or writer is
open yet. -/
def NewReadWriteCloser (c : Conn) : St :=
  { conn := c, rwc := { ws := true, r := none, w := none } }

/-- One r.Read(p[n:]) call on the modelled message reader `r` (its
remaining bytes): returns the bytes delivered, the error, and the
reader's remaining bytes. -/
def readerRead (r : List Nat) (k : Nat) : List Nat × Option Err × List Nat :=
  match r with
  | [] => ([], some Err.eof, [])
  | _ => (r.take k, none, r.drop k)

/-- The read loop of rwc.Read, fuelled: `acc` is the bytes gathered so
far (its length is Go's n), `need` is len(p).  Returns the gathered
bytes, the value of the Go variable err when the loop exits, and the
adapter's reader field afterwards (`none` when end-of-message cleared
it, `some` the advanced reader otherwise).  The io.EOF branch clears the
reader; note that the Go code does not reset err before breaking, so
io.EOF is still in err when the loop exits on end-of-message. -/
def readLoopF : Nat → List Nat → Nat → List Nat →
    List Nat × Option Err × Option (List Nat)
  | 0, r, _, acc => (acc, none, some r)
  | fuel + 1, r, need, acc =>
      if acc.length < need then
        match readerRead r (need - acc.length) with
        | (_, some e, _) =>
            -- io.EOF: clear rwc.r (it still matches — sequential run) and
            -- break; err keeps the value io.EOF.
            (acc, some e, none)
        | (d, none, r1) => readLoopF fuel r1 need (acc ++ d)
      else (acc, none, some r)

/-- The read loop, with enough fuel: every successful iteration delivers
at least one byte, so len(p) + 1 iterations always suffice. -/
def readLoop (r : List Nat) (need : Nat) : List Nat × Option Err × Option (List Nat) :=
  readLoopF (need + 1) r need []

/-- rwc.Read(p) where `plen` is len(p): snapshot ws and r (mutex
elided), fail with io.ErrClosedPipe if the connection pointer is nil,
fetch the next message reader when none is open (NextReader; a failure
propagates with no mutation — modelled as a transport error when no
message is pending), then run the read loop.  The result is the bytes
placed in p together with the returned error. -/
def Read (st : St) (plen : Nat) : (List Nat × Option Err) × St :=
  if st.rwc.ws then
    match st.rwc.r with
    | some r0 =>
        let res := readLoopF (plen + 1) r0 plen []
        ((res.1, res.2.1), { st with rwc := { st.rwc with r := res.2.2 } })
    | none =>
        match st.conn.msgs with
        | [] => (([], some Err.transport), st)
        | m :: rest =>
            -- NextReader succeeded; the Go code re-locks, re-checks
            -- rwc.ws (unchanged in a sequential run) and stores the
            -- reader in rwc.r before entering the loop.
            let res := readLoopF (plen + 1) m plen []
            ((res.1, res.2.1),
             { conn := { st.conn with msgs := rest },
               rwc := { st.rwc with r := res.2.2 } })
  else (([], some Err.closedPipe), st)

/-- The write loop of rwc.Write, fuelled: `n` is the count of bytes
written so far.  Crucially, the Go loop declares its error with
`m, err := w.Write(p[n:])`, a short variable declaration that SHADOWS
the function's named return err: the loop-local error decides only
whether to break, and is invisible after the loop.  We therefore return
it separately; the caller below ignores it, exactly like the Go code. -/
def writeLoopF : Nat → Writer → List Nat → Nat → Writer × Nat × Option Err
  | 0, w, _, n => (w, n, none)
  | fuel + 1, w, p, n =>
      if n < p.length then
        let res := writerWrite w (p.drop n)
        match res.2.2 with
        | some e => (res.1, n + res.2.1, some e)
        | none => writeLoopF fuel res.1 p (n + res.2.1)
      else (w, n, none)

/-- Tail of rwc.Write after a writer is in hand: run the write loop;
then — since the loop-local err was shadowed, the function-level err is
still nil here — the condition `err != nil || n == len(p)` reduces to
`n == len(p)`.  On a full write the writer is closed (finalized), rwc.w
is cleared (it still matches in a sequential run) and, err being nil,
the close error becomes the returned error.  On a short write the
loop's error has been lost: the writer stays open with the bytes it
accepted and the call returns (n, nil). -/
def writeBody (st : St) (w : Writer) (p : List Nat) : (Nat × Option Err) × St :=
  let res := writeLoopF (p.length + 1) w p 0
  if res.2.1 = p.length then
    let fin := finalizeWriter st.conn res.1
    ((res.2.1, fin.2), { conn := fin.1, rwc := { st.rwc with w := none } })
  else
    ((res.2.1, none), { st with rwc := { st.rwc with w := some res.1 } })

/-- rwc.Write(p): snapshot ws and w (mutex elided), fail with
io.ErrClosedPipe if the connection pointer is nil, obtain a new
text-message writer when none is open (NextWriter; a failure propagates
after consuming that behaviour entry; the Go code then re-locks,
re-checks rwc.ws — unchanged in a sequential run — and stores the
writer), then run the write loop and the finalization step. -/
def Write (st : St) (p : List Nat) : (Nat × Option Err) × St :=
  if st.rwc.ws then
    match st.rwc.w with
    | some w0 => writeBody st w0 p
    | none =>
        match nextWriter st.conn with
        | (c1, none) => ((0, some Err.transport), { st with conn := c1 })
        | (c1, some wr) =>
            writeBody { conn := c1, rwc := { st.rwc with w := some wr } } wr p
  else ((0, some Err.closedPipe), st)

/-- rwc.Close(): under the lock, take ownership of w, r and ws and clear
all three in one step; then, outside the lock, close the writer if one
was open — a failure there is returned at once, without closing the
connection — and otherwise close the connection if the handle was
present and return its result; with nothing open, return nil. -/
def Close (st : St) : Option Err × St :=
  let w := st.rwc.w
  let hadConn := st.rwc.ws
  let st1 : St := { conn := st.conn, rwc := { ws := false, r := none, w := none } }
  match w with
  | some wr =>
      let fin := finalizeWriter st1.conn wr
      match fin.2 with
      | some e => (some e, { st1 with conn := fin.1 })
      | none =>
          if hadConn then
            let cc := connClose fin.1
            (cc.2, { st1 with conn := cc.1 })
          else (none, { st1 with conn := fin.1 })
  | none =>
      if hadConn then
        let cc := connClose st1.conn
        (cc.2, { st1 with conn := cc.1 })
      else (none, st1)

/-- Run a sequence of Read calls with the given buffer sizes, collecting
each call's result. -/
def runReads (st : St) : List Nat → List (List Nat × Option Err) × St
  | [] => ([], st)
  | k :: ks =>
      let r1 := Read st k
      let rest := runReads r1.2 ks
      (r1.1 :: rest.1, rest.2)

/-- Bytes of the inbound stream not yet handed to the caller: the active
reader's remaining bytes followed by the pending messages. -/
def leftover (st : St) : List Nat :=
  (st.rwc.r.getD []) ++ st.conn.msgs.flatten

/-- Connection with a scripted list of inbound messages and default
(well-behaved) outbound writers. -/
def initConn (msgs : List (List Nat)) : Conn :=
  { msgs := msgs, wplans := [], sent := [], closed := false, closeErr := none }

/-- Invariant of the spec's data model: connection absent implies both
the active reader and the active writer are absent. -/
abbrev ConnInv (st : St) : Prop :=
  st.rwc.ws = false → st.rwc.r = none ∧ st.rwc.w = none

/-- Connection whose single NextWriter call yields a writer that accepts
one byte and then reports a transport error. -/
def connFail : Conn :=
  { msgs := [], wplans := [some { steps := [some 1], closeFail := false }],
    sent := [], closed := false, closeErr := none }

/-- Fresh adapter over `connFail`. -/
def stFail : St := NewReadWriteCloser connFail

/-- Fresh adapter whose connection delivers the single message "AB". -/
def stAB : St := NewReadWriteCloser (initConn [[65, 66]])

/-- Fresh adapter whose connection delivers "AB" then "CDE". -/
def stABCDE : St := NewReadWriteCloser (initConn [[65, 66], [67, 68, 69]])

/-- Fresh adapter holding an open writer whose finalization fails. -/
def stCloseFail : St :=
  { conn := initConn [],
    rwc := { ws := true, r := none,
             w := some { buf := [5], steps := [], closeFail := true } } }

/- ## Helper lemmas -/

/-- The read loop never loses or duplicates bytes: the bytes it gathers
followed by whatever remains of the reader reconstitute the accumulator
plus the reader it started from. -/
theorem readLoopF_append (fuel : Nat) : ∀ (r : List Nat) (need : Nat) (acc : List Nat),
    (readLoopF fuel r need acc).1 ++ ((readLoopF fuel r need acc).2.2).getD []
      = acc ++ r := by
  induction fuel with
  | zero => intro r need acc; simp [readLoopF]
  | succ fuel ih =>
      intro r need acc
      rw [readLoopF]
      by_cases h : acc.length < need
      · rw [if_pos h]
        cases r with
        | nil => simp [readerRead]
        | cons a as =>
            simp only [readerRead]
            rw [ih]
            simp [List.take_append_drop]
      · rw [if_neg h]
        simp

/-- One Read call conserves the inbound byte stream: the bytes it
returns followed by the bytes still pending equal the bytes that were
pending before the call. -/
theorem Read_step (st : St) (plen : Nat) :
    (Read st plen).1.1 ++ leftover (Read st plen).2 = leftover st := by
  rw [Read]
  by_cases hws : st.rwc.ws
  · rw [if_pos hws]
    cases hr : st.rwc.r with
    | some r0 =>
        have h := readLoopF_append (plen + 1) r0 plen []
        simp only [leftover, hr, Option.getD_some, List.nil_append] at *
        rw [← List.append_assoc, h]
    | none =>
        cases hm : st.conn.msgs with
        | nil => simp [leftover, hr, hm]
        | cons m rest =>
            have h := readLoopF_append (plen + 1) m plen []
            simp only [List.nil_append] at h
            simp only [leftover, hr, hm, Option.getD_none, List.nil_append,
              List.flatten_cons]
            rw [← List.append_assoc, h]
  · rw [if_neg hws]
    simp [leftover]

/-- Running any list of Read calls conserves the inbound byte stream. -/
theorem runReads_leftover (sizes : List Nat) : ∀ st : St,
    ((runReads st sizes).1.map (fun q => q.1)).flatten
        ++ leftover (runReads st sizes).2
      = leftover st := by
  induction sizes with
  | nil => intro st; simp [runReads]
  | cons k ks ih =>
      intro st
      simp only [runReads, List.map_cons, List.flatten_cons]
      rw [List.append_assoc, ih ((Read st k).2)]
      exact Read_step st k

/-- Close always leaves the adapter fields cleared: no connection
handle, no reader, no writer. -/
theorem Close_rwc (st : St) :
    (Close st).2.rwc = { ws := false, r := none, w := none } := by
  rw [Close]
  cases hw : st.rwc.w with
  | none => cases hws : st.rwc.ws <;> simp [connClose]
  | some wr =>
      by_cases hf : wr.closeFail
      · simp [finalizeWriter, hf]
      · cases hws : st.rwc.ws <;> simp [finalizeWriter, connClose, hf]

/-- Read never changes whether the adapter holds the connection. -/
theorem Read_ws (st : St) (plen : Nat) : (Read st plen).2.rwc.ws = st.rwc.ws := by
  rw [Read]
  split
  · split
    · rfl
    · split
      · rfl
      · rfl
  · rfl

/-- Write never changes whether the adapter holds the connection. -/
theorem Write_ws (st : St) (p : List Nat) : (Write st p).2.rwc.ws = st.rwc.ws := by
  rw [Write]
  split
  · split
    · simp only [writeBody]
      split
      · rfl
      · rfl
    · split
      · rfl
      · simp only [writeBody]
        split
        · rfl
        · rfl
  · rfl

/-- Read on an adapter without a connection handle fails fast with the
closed-pipe error and no state change. -/
theorem Read_closed (st : St) (plen : Nat) (h : st.rwc.ws = false) :
    Read st plen = (([], some Err.closedPipe), st) := by
  rw [Read, h]
  simp

/-- Write on an adapter without a connection handle fails fast with the
closed-pipe error and no state change. -/
theorem Write_closed (st : St) (p : List Nat) (h : st.rwc.ws = false) :
    Write st p = ((0, some Err.closedPipe), st) := by
  rw [Write, h]
  simp

/- ## Claim theorems -/

/-- Claim C1, evaluated at the failing input.  On an open adapter, Write
[1, 2] against a writer that accepts one byte and then reports a
transport error returns (1, nil): the loop's error is swallowed (the Go
code shadows the named return err with a short variable declaration in
the loop), the message writer is left open holding the accepted byte,
and no message is finalized — contradicting the claim that the error is
returned and the writer finalized. -/
theorem write_error_swallowed :
    (Write stFail [1, 2]).1 = (1, none)
  ∧ (Write stFail [1, 2]).2.rwc.w
      = some { buf := [1], steps := [], closeFail := false }
  ∧ (Write stFail [1, 2]).2.conn.sent = [] := by decide

/-- Claim C2, evaluated at the failing input.  Reading a 3-byte buffer
from an adapter whose connection delivers the single message "AB"
clears the active reader (the race guard matches) but returns the
io.EOF value as the call's error: the Go code breaks out of the read
loop on end-of-message without resetting the named return err, so
end-of-message IS surfaced to the caller as an error value,
contradicting the claim that the call returns with no error. -/
theorem read_eom_returns_eof :
    (Read stAB 3).1 = ([65, 66], some Err.eof)
  ∧ (Read stAB 3).2.rwc.r = none := by decide

/-- Claim C3, counterexample.  With messages "AB" then "CDE" and a
3-byte buffer, the first Read call returns only the 2 bytes "AB" and
stops: after the call the active reader is cleared and the second
message is still pending, un-fetched, on the connection.  The read loop
therefore does not continue to the next message within that same call,
refuting the claim's stated mechanism (the reader fetch happens once,
before the loop; end-of-message breaks the loop). -/
theorem read_call_stops_at_message_end :
    (Read stABCDE 3).1.1 = [65, 66]
  ∧ (Read stABCDE 3).2.conn.msgs = [[67, 68, 69]]
  ∧ (Read stABCDE 3).2.rwc.r = none := by decide

/-- Claim C3 as amended: with messages "AB" then "CDE" and three Read
calls of buffer size 3, the first call returns "AB" (2 bytes) and ends
at the message boundary; the three calls return "AB", "CDE" and ""
respectively, and the total bytes returned equal "ABCDE" with no loss
or duplication. -/
theorem three_reads_return_all_bytes :
    ((runReads stABCDE [3, 3, 3]).1.map (fun q => q.1))
        = [[65, 66], [67, 68, 69], []]
  ∧ ((runReads stABCDE [3, 3, 3]).1.map (fun q => q.1)).flatten
        = [65, 66, 67, 68, 69] := by decide

/-- Claim C4, evaluated at the failing input.  After a Write [1, 2]
whose underlying writer failed after one byte (the error being
swallowed, the writer stays open holding [1]), a subsequent Write [3]
is fully written (returns (1, nil)) and finalizes one message — but
that message is [1, 3], coalescing a byte left over from the earlier
failed call, contradicting the claim that the finalized message equals
exactly that call's buffer. -/
theorem write_coalesces_after_swallowed_error :
    (Write (Write stFail [1, 2]).2 [3]).1 = (1, none)
  ∧ (Write (Write stFail [1, 2]).2 [3]).2.conn.sent = [[1, 3]] := by decide

/-- Claim C5: Read is a transparent de-framing concatenation.  For
every message stream and every sequence of Read buffer sizes, the bytes
returned across the calls, followed by the bytes still pending in the
adapter and connection, equal the concatenation of all messages — no
byte is lost, duplicated or reordered, and no message boundary is
visible; in particular, once nothing is left pending the returned bytes
equal the full concatenation. -/
theorem read_transparent_deframing (msgs : List (List Nat)) (sizes : List Nat) :
    ((runReads (NewReadWriteCloser (initConn msgs)) sizes).1.map (fun q => q.1)).flatten
        ++ leftover (runReads (NewReadWriteCloser (initConn msgs)) sizes).2
      = msgs.flatten := by
  have base : leftover (NewReadWriteCloser (initConn msgs)) = msgs.flatten := by
    simp [leftover, NewReadWriteCloser, initConn]
  rw [runReads_leftover sizes (NewReadWriteCloser (initConn msgs)), base]

/-- Claim C6: after any Close call, whatever it returned, every
subsequent Read and every subsequent Write returns the closed-pipe
error immediately and leaves the entire state — the connection
included — untouched (no underlying I/O is attempted). -/
theorem closed_adapter_fails_fast (st : St) (plen : Nat) (p : List Nat) :
    Read (Close st).2 plen = (([], some Err.closedPipe), (Close st).2)
  ∧ Write (Close st).2 p = ((0, some Err.closedPipe), (Close st).2) := by
  have h : (Close st).2.rwc.ws = false := by rw [Close_rwc st]
  exact ⟨Read_closed (Close st).2 plen h, Write_closed (Close st).2 p h⟩

/-- Claim C7: the Close policy.  If a writer whose finalization fails
was open, Close returns that failure and leaves the connection exactly
as it was (not closed on that path).  If an open writer finalizes
successfully, its message is flushed and then the connection, when
present, is closed and its result returned.  With no writer and a
connection present, the connection is closed and its result returned.
With nothing open, Close returns no error and touches nothing. -/
theorem Close_policy (st : St) :
    (∀ wr, st.rwc.w = some wr → wr.closeFail = true →
        Close st = (some Err.transport,
          { conn := st.conn, rwc := { ws := false, r := none, w := none } }))
  ∧ (∀ wr, st.rwc.w = some wr → wr.closeFail = false →
        (Close st).1 = (if st.rwc.ws then st.conn.closeErr else none)
      ∧ (Close st).2.conn.sent = st.conn.sent ++ [wr.buf]
      ∧ (Close st).2.conn.closed = (st.rwc.ws || st.conn.closed))
  ∧ (st.rwc.w = none → st.rwc.ws = true →
        (Close st).1 = st.conn.closeErr ∧ (Close st).2.conn.closed = true)
  ∧ (st.rwc.w = none → st.rwc.ws = false →
        Close st = (none,
          { conn := st.conn, rwc := { ws := false, r := none, w := none } })) := by
  refine ⟨?_, ?_, ?_, ?_⟩
  · intro wr hw hf
    rw [Close, hw]
    simp [finalizeWriter, hf]
  · intro wr hw hf
    rw [Close, hw]
    cases hws : st.rwc.ws <;> simp [finalizeWriter, connClose, hf]
  · intro hw hws
    rw [Close, hw, hws]
    simp [connClose]
  · intro hw hws
    rw [Close, hw, hws]
    simp

/-- Witness for the Close policy: a concrete adapter holding a writer
whose finalization fails; Close returns the transport error and leaves
the connection untouched. -/
theorem Close_policy_witness :
    Close stCloseFail = (some Err.transport,
      { conn := stCloseFail.conn, rwc := { ws := false, r := none, w := none } }) :=
  (Close_policy stCloseFail).1 { buf := [5], steps := [], closeFail := true } rfl rfl

/-- Claim C8: the invariant "connection absent implies reader and
writer absent" holds for a freshly constructed adapter and is preserved
by Read, Write and Close; moreover Close clears all three fields
together. -/
theorem conn_absent_invariant :
    (∀ c, ConnInv (NewReadWriteCloser c))
  ∧ (∀ st plen, ConnInv st → ConnInv (Read st plen).2)
  ∧ (∀ st p, ConnInv st → ConnInv (Write st p).2)
  ∧ (∀ st, (Close st).2.rwc = { ws := false, r := none, w := none }
        ∧ ConnInv (Close st).2) := by
  refine ⟨?_, ?_, ?_, ?_⟩
  · intro c h
    simp [NewReadWriteCloser] at h
  · intro st plen h hfalse
    rw [Read_ws st plen] at hfalse
    rw [Read_closed st plen hfalse]
    exact h hfalse
  · intro st p h hfalse
    rw [Write_ws st p] at hfalse
    rw [Write_closed st p hfalse]
    exact h hfalse
  · intro st
    refine ⟨Close_rwc st, ?_⟩
    intro _
    rw [Close_rwc st]
    exact ⟨rfl, rfl⟩

/-- Witness for the invariant preservation: concrete Read and Write
calls preserve the invariant. -/
theorem conn_absent_invariant_witness :
    ConnInv (Read (NewReadWriteCloser (initConn [[7]])) 1).2
  ∧ ConnInv (Write (NewReadWriteCloser (initConn [])) [2]).2 :=
  ⟨conn_absent_invariant.2.1 (NewReadWriteCloser (initConn [[7]])) 1 (by decide),
   conn_absent_invariant.2.2.1 (NewReadWriteCloser (initConn [])) [2] (by decide)⟩

/-- Claim C9: Close is idempotent-safe.  A second Close after any Close
finds no writer and no connection handle, performs no teardown (the
state, connection included, is returned unchanged) and returns no
error. -/
theorem Close_idempotent (st : St) :
    Close (Close st).2 = (none, (Close st).2) := by
  have h := Close_rwc st
  generalize hE : (Close st).2 = s2 at h ⊢
  cases s2 with
  | mk c2 r2 =>
      simp only at h
      rw [h]
      simp [Close]

/-- Claim C10: Write with an empty buffer on an open adapter with no
writer open (and a well-behaved connection) obtains a fresh
text-message writer, immediately finalizes it — emitting exactly one
empty message — leaves the writer field cleared, and returns (0, nil). -/
theorem write_empty_emits_empty_message (st : St)
    (h1 : st.rwc.ws = true) (h2 : st.rwc.w = none) (h3 : st.conn.wplans = []) :
    Write st [] = ((0, none),
      { conn := { st.conn with sent := st.conn.sent ++ [[]] },
        rwc := { st.rwc with w := none } }) := by
  simp [Write, writeBody, writeLoopF, nextWriter, finalizeWriter, h1, h2, h3]

/-- Witness for the empty-buffer Write: a concrete open adapter. -/
theorem write_empty_witness :
    Write (NewReadWriteCloser (initConn [[9]])) [] =
      ((0, none),
       { conn := { initConn [[9]] with sent := [] ++ [[]] },
         rwc := { (NewReadWriteCloser (initConn [[9]])).rwc with w := none } }) :=
  write_empty_emits_empty_message (NewReadWriteCloser (initConn [[9]])) rfl rfl rfl

end WSRPC
